import Mathlib

/-!
Shallow embedding of the service worker in `src/service-worker.js`
(QuranReciter repository).

The worker has three event handlers:
* install  — warms up the app-shell cache (not needed by the claims below);
* activate — deletes every cache whose name is not in the whitelist
  `[CACHE_NAME, 'audio-cache', 'api-cache']` (lines 29–44);
* fetch    — classifies each request and runs one of three strategies
  (lines 47–156): media cache-first, API network-first, and default
  stale-while-revalidate.

Modelling choices, all taken from the source:
* The Cache Storage API is the abstract key→response store the spec
  describes: a store is an ordered list of named partitions, a partition an
  ordered association list from URL strings to responses.  `cache.match`
  and `cache.put` key on the request URL (`href`); request headers are not
  part of the key (the stored media responses carry no `Vary` header).
* `fetch` is an oracle `Request → Except Unit Response`: `ok` models a
  resolved promise, `error` a rejected one.  A resolved fetch always
  carries a response, so the source's `!networkResponse` test (line 142)
  can never fire and is folded into the status/type test.
* `cache.put` may itself fail; the boolean `putOk` says whether the write
  succeeds.  The handlers record the console messages they emit in `log`
  and every cache operation they perform in `ops`.
* `Response.clone` produces an identical response and is the identity.
-/

namespace SW

/-- Character-list prefix test (structural, so the kernel can evaluate it). -/
def isPrefixL : List Char → List Char → Bool
  | [], _ => true
  | _ :: _, [] => false
  | p :: ps, c :: cs => p = c && isPrefixL ps cs

/-- Character-list infix test. -/
def isInfixL (pat : List Char) : List Char → Bool
  | [] => isPrefixL pat []
  | c :: cs => isPrefixL pat (c :: cs) || isInfixL pat cs

/-- JavaScript `String.prototype.includes`. -/
def strIncludes (s pat : String) : Bool := isInfixL pat.data s.data

/-- JavaScript `String.prototype.startsWith`. -/
def strStartsWith (s pat : String) : Bool := isPrefixL pat.data s.data

/-- JavaScript `String.prototype.endsWith`. -/
def strEndsWith (s pat : String) : Bool := isPrefixL pat.data.reverse s.data.reverse

/-- A parsed URL: `new URL(...)` fields used by the worker.
`origin` is scheme+host, `pathname` starts with `/`, `search` is the query
(`""` or starting with `?`). -/
structure Url where
  origin : String
  pathname : String
  search : String
deriving DecidableEq

/-- JS `url.href`: the full serialized URL. -/
def Url.href (u : Url) : String := u.origin ++ u.pathname ++ u.search

/-- An inbound request as the fetch listener sees it.  Header names are
lowercase, as in the JS `Headers` object. -/
structure Request where
  method : String
  url : Url
  headers : List (String × String)
  mode : String
  credentials : String
deriving DecidableEq

/-- A response: status code, response type (`"basic"`, `"cors"`,
`"opaque"`, …) and an abstract body identifier that distinguishes
distinct network answers. -/
structure Response where
  status : Nat
  type : String
  body : Nat
deriving DecidableEq

/-- JS `response.clone()` yields an identical response. -/
def Response.clone (r : Response) : Response := r

/-- One cache partition: an ordered association list from URL keys to
responses (at most one entry per key). -/
abbrev Cache := List (String × Response)

/-- JS `cache.match(key)`: first entry stored under `key`, if any. -/
def cacheMatch : Cache → String → Option Response
  | [], _ => none
  | (k, r) :: rest, key => if k = key then some r else cacheMatch rest key

/-- JS `cache.put(key, r)`: overwrite the entry for `key`, or append one. -/
def cachePut : Cache → String → Response → Cache
  | [], key, r => [(key, r)]
  | (k, x) :: rest, key, r =>
    if k = key then (key, r) :: rest else (k, x) :: cachePut rest key r

/-- The whole Cache Storage: named partitions in creation order. -/
abbrev Store := List (String × Cache)

/-- Contents of partition `n` (empty when the partition does not exist). -/
def storeGet : Store → String → Cache
  | [], _ => []
  | (m, c) :: rest, n => if m = n then c else storeGet rest n

/-- JS `caches.open(n)`: create the partition if absent (idempotent). -/
def cachesOpen : Store → String → Store
  | [], n => [(n, [])]
  | (m, c) :: rest, n =>
    if m = n then (m, c) :: rest else (m, c) :: cachesOpen rest n

/-- Replace the contents of partition `n` (create it if absent). -/
def storeSet : Store → String → Cache → Store
  | [], n, c => [(n, c)]
  | (m, d) :: rest, n, c =>
    if m = n then (n, c) :: rest else (m, d) :: storeSet rest n c

/-- JS `caches.match(key)`: search every partition in order. -/
def cachesMatchAll : Store → String → Option Response
  | [], _ => none
  | (_, c) :: rest, key =>
    match cacheMatch c key with
    | some r => some r
    | none => cachesMatchAll rest key

/-- The partition names present in a store. -/
def storeNames (s : Store) : List String := s.map Prod.fst

/-- The network transport: a resolved response or a rejection. -/
abbrev Net := Request → Except Unit Response

/-- line 1: `const CACHE_NAME = 'quran-reciter-v12'`. -/
def CACHE_NAME : String := "quran-reciter-v12"

/-- line 31: the activation whitelist `[CACHE_NAME, 'audio-cache', 'api-cache']`. -/
def cacheWhitelist : List String := [CACHE_NAME, "audio-cache", "api-cache"]

/-- lines 29–44, activate handler: delete every cache whose name is not in
the whitelist; whitelisted caches are kept untouched. -/
def activateEvict (store : Store) : Store :=
  store.filter (fun p => cacheWhitelist.contains p.1)

/-- The classification decision for one request (spec §4.2). -/
inductive Decision where
  | bypass
  | media
  | api
  | default
deriving DecidableEq

/-- The guard cascade of the fetch listener (lines 47–63, 66, 119), in
source order, first match wins. -/
def classify (req : Request) : Decision :=
  if strIncludes req.url.href "api.alquran.cloud" then .bypass
  else if strIncludes req.url.pathname "surah-data.js" then .bypass
  else if req.method = "POST" then .bypass
  else if strEndsWith req.url.pathname ".mp3" || strEndsWith req.url.pathname ".json"
          || strIncludes req.url.pathname "/cache/" then .media
  else if req.url.pathname = "/history" || strStartsWith req.url.pathname "/recitation/"
    then .api
  else .default

/-- Line 84: `newHeaders.delete('range')`. -/
def deleteRangeHeader (hs : List (String × String)) : List (String × String) :=
  hs.filter (fun h => h.1 ≠ "range")

/-- Lines 86 and 100, `new URL(url.pathname, self.location.origin).href`:
the same-origin absolute URL of the path, with no query. -/
def mediaFetchUrl (selfOrigin : String) (req : Request) : String :=
  selfOrigin ++ req.url.pathname

/-- The media request normalizer (lines 83–92): strip the Range header,
retarget to the same-origin URL of the path, mode `cors`, credentials
`same-origin`. -/
def normalizeMedia (selfOrigin : String) (req : Request) : Request :=
  { method := req.method
    url := { origin := selfOrigin, pathname := req.url.pathname, search := "" }
    headers := deleteRangeHeader req.headers
    mode := "cors"
    credentials := "same-origin" }

/-- A cache operation performed while handling one request. -/
inductive CacheOp where
  | openp (name : String)
  | matchp (name : String) (key : String)
  | matchAll (key : String)
  | putp (name : String) (key : String)
deriving DecidableEq

/-- What the caller receives from `respondWith` (or the lack of it). -/
inductive Outcome where
  /-- No `respondWith`: the request goes straight to the network. -/
  | passthrough
  /-- The `respondWith` promise resolved with a response. -/
  | served (r : Response)
  /-- The `respondWith` promise resolved with `undefined` (a failed `cache.match`). -/
  | servedNone
  /-- The promise given to `respondWith` rejected. -/
  | failed
deriving DecidableEq

/-- The complete effect of handling one fetch event. -/
structure HandleResult where
  outcome : Outcome
  store : Store
  log : List String
  ops : List CacheOp
deriving DecidableEq

/-- Media cache-first branch (lines 66–116): open `audio-cache`, match the
incoming request; on miss fetch the normalized request; cache the clone
under the canonical same-origin path URL only when the status is exactly
200 (`cache.put` has `.then`/`.catch` logging, line 101–103); return the
network response; a fetch rejection propagates. -/
def handleMedia (selfOrigin : String) (req : Request) (store : Store) (net : Net)
    (putOk : Bool) : HandleResult :=
  let store1 := cachesOpen store "audio-cache"
  let cache := storeGet store1 "audio-cache"
  match cacheMatch cache req.url.href with
  | some r =>
      { outcome := .served r
        store := store1
        log := ["[SW] Intercepting:", "[SW] Found in cache:"]
        ops := [.openp "audio-cache", .matchp "audio-cache" req.url.href] }
  | none =>
      let newRequest := normalizeMedia selfOrigin req
      match net newRequest with
      | .ok networkResponse =>
          if networkResponse.status = 200 then
            let cacheUrl := mediaFetchUrl selfOrigin req
            if putOk then
              { outcome := .served networkResponse
                store := storeSet store1 "audio-cache"
                  (cachePut cache cacheUrl networkResponse.clone)
                log := ["[SW] Intercepting:", "[SW] Not in cache. Fetching full file...",
                        "[SW] Network response status:", "[SW] Caching file:",
                        "[SW] Cache put success for:"]
                ops := [.openp "audio-cache", .matchp "audio-cache" req.url.href,
                        .putp "audio-cache" cacheUrl] }
            else
              { outcome := .served networkResponse
                store := store1
                log := ["[SW] Intercepting:", "[SW] Not in cache. Fetching full file...",
                        "[SW] Network response status:", "[SW] Caching file:",
                        "[SW] Cache put failed:"]
                ops := [.openp "audio-cache", .matchp "audio-cache" req.url.href,
                        .putp "audio-cache" cacheUrl] }
          else
            { outcome := .served networkResponse
              store := store1
              log := ["[SW] Intercepting:", "[SW] Not in cache. Fetching full file...",
                      "[SW] Network response status:", "[SW] Not caching - status was:"]
              ops := [.openp "audio-cache", .matchp "audio-cache" req.url.href] }
      | .error _ =>
          { outcome := .failed
            store := store1
            log := ["[SW] Intercepting:", "[SW] Not in cache. Fetching full file...",
                    "[SW] Fetch failed:"]
            ops := [.openp "audio-cache", .matchp "audio-cache" req.url.href] }

/-- API network-first branch (lines 119–135): open `api-cache`, fetch the
original request; on status 200 put a clone under the original request
(line 125 — the put has no rejection handler, so a write failure is not
logged); return the live response; on fetch rejection fall back to
`cache.match` of the request. -/
def handleApi (req : Request) (store : Store) (net : Net) (putOk : Bool) : HandleResult :=
  let store1 := cachesOpen store "api-cache"
  let cache := storeGet store1 "api-cache"
  match net req with
  | .ok networkResponse =>
      if networkResponse.status = 200 then
        if putOk then
          { outcome := .served networkResponse
            store := storeSet store1 "api-cache"
              (cachePut cache req.url.href networkResponse.clone)
            log := []
            ops := [.openp "api-cache", .putp "api-cache" req.url.href] }
        else
          { outcome := .served networkResponse
            store := store1
            log := []
            ops := [.openp "api-cache", .putp "api-cache" req.url.href] }
      else
        { outcome := .served networkResponse
          store := store1
          log := []
          ops := [.openp "api-cache"] }
  | .error _ =>
      match cacheMatch cache req.url.href with
      | some c =>
          { outcome := .served c
            store := store1
            log := []
            ops := [.openp "api-cache", .matchp "api-cache" req.url.href] }
      | none =>
          { outcome := .servedNone
            store := store1
            log := []
            ops := [.openp "api-cache", .matchp "api-cache" req.url.href] }

/-- Default stale-while-revalidate branch (lines 138–155): `caches.match`
the request across all partitions; always issue the network fetch; when it
resolves with status 200 and type `basic`, put a clone into `CACHE_NAME`
(line 149 — no rejection handler); the caller gets the cached response if
one exists, otherwise the network result. -/
def handleDefault (req : Request) (store : Store) (net : Net) (putOk : Bool) : HandleResult :=
  let cachedResponse := cachesMatchAll store req.url.href
  let netResult := net req
  let afterNet : Store × List CacheOp :=
    match netResult with
    | .ok networkResponse =>
        if networkResponse.status = 200 && networkResponse.type = "basic" then
          let store1 := cachesOpen store CACHE_NAME
          if putOk then
            (storeSet store1 CACHE_NAME
               (cachePut (storeGet store1 CACHE_NAME) req.url.href networkResponse.clone),
             [CacheOp.matchAll req.url.href, .openp CACHE_NAME, .putp CACHE_NAME req.url.href])
          else
            (store1,
             [CacheOp.matchAll req.url.href, .openp CACHE_NAME, .putp CACHE_NAME req.url.href])
        else (store, [CacheOp.matchAll req.url.href])
    | .error _ => (store, [CacheOp.matchAll req.url.href])
  match cachedResponse with
  | some c => { outcome := .served c, store := afterNet.1, log := [], ops := afterNet.2 }
  | none =>
      match netResult with
      | .ok networkResponse =>
          { outcome := .served networkResponse, store := afterNet.1, log := [], ops := afterNet.2 }
      | .error _ =>
          { outcome := .failed, store := afterNet.1, log := [], ops := afterNet.2 }

/-- The whole fetch listener (lines 47–156): the guard cascade selects the
strategy; a bypassed request is never responded to and touches no cache. -/
def handleFetch (selfOrigin : String) (req : Request) (store : Store) (net : Net)
    (putOk : Bool) : HandleResult :=
  match classify req with
  | .bypass => { outcome := .passthrough, store := store, log := [], ops := [] }
  | .media => handleMedia selfOrigin req store net putOk
  | .api => handleApi req store net putOk
  | .default => handleDefault req store net putOk

/-! ### Helper lemmas about the store model -/

theorem storeGet_cachesOpen (s : Store) (m n : String) :
    storeGet (cachesOpen s m) n = storeGet s n := by
  induction s with
  | nil =>
      simp only [cachesOpen, storeGet]
      split <;> rfl
  | cons p rest ih =>
      obtain ⟨k, c⟩ := p
      simp only [cachesOpen]
      by_cases hk : k = m
      · simp [hk]
      · simp only [if_neg hk, storeGet]
        by_cases hn : k = n
        · simp [hn]
        · simp [hn, ih]

theorem storeGet_storeSet_self (s : Store) (n : String) (c : Cache) :
    storeGet (storeSet s n c) n = c := by
  induction s with
  | nil => simp [storeSet, storeGet]
  | cons p rest ih =>
      obtain ⟨k, d⟩ := p
      simp only [storeSet]
      by_cases hk : k = n
      · simp [hk, storeGet]
      · simp [hk, storeGet, ih]

theorem storeGet_storeSet_ne (s : Store) (m n : String) (c : Cache) (h : m ≠ n) :
    storeGet (storeSet s m c) n = storeGet s n := by
  induction s with
  | nil => simp [storeSet, storeGet, h]
  | cons p rest ih =>
      obtain ⟨k, d⟩ := p
      simp only [storeSet]
      by_cases hk : k = m
      · subst hk
        simp [storeGet, h]
      · simp only [if_neg hk, storeGet]
        by_cases hn : k = n
        · simp [hn]
        · simp [hn, ih]

theorem cacheMatch_cachePut_self (c : Cache) (key : String) (r : Response) :
    cacheMatch (cachePut c key r) key = some r := by
  induction c with
  | nil => simp [cachePut, cacheMatch]
  | cons p rest ih =>
      obtain ⟨k, x⟩ := p
      simp only [cachePut]
      by_cases hk : k = key
      · simp [hk, cacheMatch]
      · simp [hk, cacheMatch, ih]

/-- The classifier reads only the method and the URL of a request, never
its headers, mode or credentials. -/
theorem classify_congr (r₁ r₂ : Request) (hm : r₁.method = r₂.method)
    (hu : r₁.url = r₂.url) : classify r₁ = classify r₂ := by
  simp [classify, hm, hu]

/-! ### The claims -/

/-- C6: after the activation eviction, a partition name is present exactly
when it was present before and is on the whitelist — every unlisted
existing name is deleted, every whitelisted existing name survives. -/
theorem c6_activate_evicts_exactly_unlisted (store : Store) (name : String) :
    name ∈ storeNames (activateEvict store) ↔
      name ∈ storeNames store ∧ name ∈ cacheWhitelist := by
  simp only [storeNames, activateEvict, List.mem_map]
  constructor
  · rintro ⟨p, hp, rfl⟩
    rw [List.mem_filter] at hp
    refine ⟨⟨p, hp.1, rfl⟩, ?_⟩
    simpa using hp.2
  · rintro ⟨⟨p, hp, rfl⟩, hw⟩
    refine ⟨p, List.mem_filter.mpr ⟨hp, ?_⟩, rfl⟩
    simpa using hw

/-- Witness for C6 on the concrete store of the spec scenario:
the stale shell partition is evicted, the whitelisted one survives. -/
theorem c6_activate_witness :
    "old-v11" ∉
      storeNames (activateEvict
        [("quran-reciter-v12", []), ("old-v11", []), ("audio-cache", [])]) ∧
    "audio-cache" ∈
      storeNames (activateEvict
        [("quran-reciter-v12", []), ("old-v11", []), ("audio-cache", [])]) := by
  constructor
  · intro h
    have h2 := (c6_activate_evicts_exactly_unlisted
      [("quran-reciter-v12", []), ("old-v11", []), ("audio-cache", [])] "old-v11").mp h
    exact absurd h2.2 (by decide)
  · exact (c6_activate_evicts_exactly_unlisted
      [("quran-reciter-v12", []), ("old-v11", []), ("audio-cache", [])] "audio-cache").mpr
      ⟨by decide, by decide⟩

/-- C7: a bypassed request (external API host, protected data file, or
POST) is never responded to by the worker, performs no cache operation,
and leaves the store exactly as it was. -/
theorem c7_bypass_touches_no_partition (selfOrigin : String) (req : Request)
    (store : Store) (net : Net) (putOk : Bool)
    (h : classify req = Decision.bypass) :
    handleFetch selfOrigin req store net putOk =
      { outcome := .passthrough, store := store, log := [], ops := [] } := by
  simp [handleFetch, h]

/-- Witness for C7: a POST request is bypassed untouched even with a
populated store and a failing network. -/
theorem c7_bypass_witness :
    handleFetch "https://app.example"
        ⟨"POST", ⟨"https://app.example", "/submit", ""⟩, [], "cors", "same-origin"⟩
        [("audio-cache", [("k", ⟨200, "basic", 9⟩)])] (fun _ => Except.error ()) true =
      { outcome := .passthrough
        store := [("audio-cache", [("k", ⟨200, "basic", 9⟩)])]
        log := []
        ops := [] } :=
  c7_bypass_touches_no_partition "https://app.example"
    ⟨"POST", ⟨"https://app.example", "/submit", ""⟩, [], "cors", "same-origin"⟩
    [("audio-cache", [("k", ⟨200, "basic", 9⟩)])] (fun _ => Except.error ()) true
    (by decide)

/-- C8 counterexample: a PUT request to `/history` is NOT bypassed — only
POST is checked (line 61) — it is classified `api`, and handling it with a
200 network response stores a cache entry keyed on that non-idempotent
request. -/
theorem c8_counterexample_put_not_bypassed :
    classify ⟨"PUT", ⟨"https://app.example", "/history", ""⟩, [], "cors", "same-origin"⟩
        ≠ Decision.bypass ∧
    classify ⟨"PUT", ⟨"https://app.example", "/history", ""⟩, [], "cors", "same-origin"⟩
        = Decision.api ∧
    (handleFetch "https://app.example"
        ⟨"PUT", ⟨"https://app.example", "/history", ""⟩, [], "cors", "same-origin"⟩
        [] (fun _ => Except.ok ⟨200, "basic", 3⟩) true).store
      = [("api-cache", [("https://app.example/history", ⟨200, "basic", 3⟩)])] := by
  refine ⟨by decide, by decide, by decide⟩

/-- C8 amended: only the method POST is bypassed by the classifier; a POST
request always classifies as bypass and passes straight to the network
with no cache operation. -/
theorem c8_amended_post_bypassed (selfOrigin : String) (req : Request)
    (store : Store) (net : Net) (putOk : Bool) (h : req.method = "POST") :
    classify req = Decision.bypass ∧
    handleFetch selfOrigin req store net putOk =
      { outcome := .passthrough, store := store, log := [], ops := [] } := by
  have hc : classify req = Decision.bypass := by
    unfold classify
    rw [h]
    split
    · rfl
    · split
      · rfl
      · rw [if_pos rfl]
  exact ⟨hc, by simp [handleFetch, hc]⟩

/-- Witness for the amended C8: a concrete POST request is bypassed. -/
theorem c8_amended_witness :
    classify ⟨"POST", ⟨"https://app.example", "/history", ""⟩, [], "cors", "same-origin"⟩
        = Decision.bypass ∧
    handleFetch "https://app.example"
        ⟨"POST", ⟨"https://app.example", "/history", ""⟩, [], "cors", "same-origin"⟩
        [] (fun _ => Except.ok ⟨200, "basic", 3⟩) true =
      { outcome := .passthrough, store := [], log := [], ops := [] } :=
  c8_amended_post_bypassed "https://app.example"
    ⟨"POST", ⟨"https://app.example", "/history", ""⟩, [], "cors", "same-origin"⟩
    [] (fun _ => Except.ok ⟨200, "basic", 3⟩) true (by decide)

/-- C1: the media strategy stores into the media partition only when the
network status is exactly 200; on a miss, a response with any other status
is returned to the caller with every partition's contents unchanged. -/
theorem c1_media_stores_only_200 (selfOrigin : String) (req : Request)
    (store : Store) (net : Net) (putOk : Bool)
    (hmedia : classify req = Decision.media) :
    ((∀ n, storeGet (handleFetch selfOrigin req store net putOk).store n = storeGet store n) ∨
      ∃ r, net (normalizeMedia selfOrigin req) = Except.ok r ∧ r.status = 200) ∧
    (∀ nr, cacheMatch (storeGet store "audio-cache") req.url.href = none →
      net (normalizeMedia selfOrigin req) = Except.ok nr → nr.status ≠ 200 →
      (handleFetch selfOrigin req store net putOk).outcome = Outcome.served nr ∧
      ∀ n, storeGet (handleFetch selfOrigin req store net putOk).store n = storeGet store n) := by
  constructor
  · simp only [handleFetch, hmedia, handleMedia]
    cases hcm : cacheMatch (storeGet (cachesOpen store "audio-cache") "audio-cache")
        req.url.href with
    | some r => exact Or.inl fun n => by simp [storeGet_cachesOpen]
    | none =>
        cases hnet : net (normalizeMedia selfOrigin req) with
        | error e => exact Or.inl fun n => by simp [storeGet_cachesOpen]
        | ok nr =>
            by_cases h200 : nr.status = 200
            · exact Or.inr ⟨nr, rfl, h200⟩
            · refine Or.inl fun n => ?_
              simp [h200, storeGet_cachesOpen]
  · intro nr hmiss hnet h200
    have hmiss' : cacheMatch (storeGet (cachesOpen store "audio-cache") "audio-cache")
        req.url.href = none := by
      rw [storeGet_cachesOpen]; exact hmiss
    constructor
    · simp [handleFetch, hmedia, handleMedia, hmiss', hnet, h200]
    · intro n
      simp [handleFetch, hmedia, handleMedia, hmiss, hmiss', hnet, h200, storeGet_cachesOpen]

/-- Witness for C1: a miss followed by a 404 network answer is returned
and nothing is stored. -/
theorem c1_media_witness :
    ((∀ n, storeGet (handleFetch "https://app.example"
          ⟨"GET", ⟨"https://app.example", "/a.mp3", ""⟩, [], "cors", "same-origin"⟩
          [] (fun _ => Except.ok ⟨404, "basic", 7⟩) true).store n = storeGet [] n) ∨
      ∃ r, (fun _ => Except.ok ⟨404, "basic", 7⟩ :
          Net) (normalizeMedia "https://app.example"
            ⟨"GET", ⟨"https://app.example", "/a.mp3", ""⟩, [], "cors", "same-origin"⟩)
          = Except.ok r ∧ r.status = 200) ∧
    (∀ nr, cacheMatch (storeGet ([] : Store) "audio-cache")
        (Url.href ⟨"https://app.example", "/a.mp3", ""⟩) = none →
      (fun _ => Except.ok ⟨404, "basic", 7⟩ :
          Net) (normalizeMedia "https://app.example"
            ⟨"GET", ⟨"https://app.example", "/a.mp3", ""⟩, [], "cors", "same-origin"⟩)
          = Except.ok nr → nr.status ≠ 200 →
      (handleFetch "https://app.example"
          ⟨"GET", ⟨"https://app.example", "/a.mp3", ""⟩, [], "cors", "same-origin"⟩
          [] (fun _ => Except.ok ⟨404, "basic", 7⟩) true).outcome = Outcome.served nr ∧
      ∀ n, storeGet (handleFetch "https://app.example"
          ⟨"GET", ⟨"https://app.example", "/a.mp3", ""⟩, [], "cors", "same-origin"⟩
          [] (fun _ => Except.ok ⟨404, "basic", 7⟩) true).store n = storeGet [] n) :=
  c1_media_stores_only_200 "https://app.example"
    ⟨"GET", ⟨"https://app.example", "/a.mp3", ""⟩, [], "cors", "same-origin"⟩
    [] (fun _ => Except.ok ⟨404, "basic", 7⟩) true (by decide)

/-- C3: for an api request whose network fetch resolves, the caller always
receives the live network response (whatever the cache holds), and when
the status is 200 and the write succeeds, a clone is stored under the
original request's URL. -/
theorem c3_api_network_first (selfOrigin : String) (req : Request) (store : Store)
    (net : Net) (putOk : Bool) (nr : Response)
    (hapi : classify req = Decision.api)
    (hnet : net req = Except.ok nr) :
    (handleFetch selfOrigin req store net putOk).outcome = Outcome.served nr ∧
    (nr.status = 200 → putOk = true →
      cacheMatch (storeGet (handleFetch selfOrigin req store net putOk).store "api-cache")
          req.url.href = some nr) := by
  constructor
  · by_cases h200 : nr.status = 200 <;>
      cases putOk <;> simp [handleFetch, hapi, handleApi, hnet, h200]
  · intro h200 hput
    subst hput
    simp [handleFetch, hapi, handleApi, hnet, h200, storeGet_storeSet_self,
      cacheMatch_cachePut_self, Response.clone]

/-- Witness for C3: a 200 network answer over a pre-existing stale cache
entry is served live and overwrites the entry. -/
theorem c3_api_witness :
    (handleFetch "https://app.example"
        ⟨"GET", ⟨"https://app.example", "/history", ""⟩, [], "cors", "same-origin"⟩
        [("api-cache", [("https://app.example/history", ⟨200, "basic", 1⟩)])]
        (fun _ => Except.ok ⟨200, "basic", 2⟩) true).outcome
      = Outcome.served ⟨200, "basic", 2⟩ ∧
    ((⟨200, "basic", 2⟩ : Response).status = 200 → true = true →
      cacheMatch (storeGet (handleFetch "https://app.example"
          ⟨"GET", ⟨"https://app.example", "/history", ""⟩, [], "cors", "same-origin"⟩
          [("api-cache", [("https://app.example/history", ⟨200, "basic", 1⟩)])]
          (fun _ => Except.ok ⟨200, "basic", 2⟩) true).store "api-cache")
          (Url.href ⟨"https://app.example", "/history", ""⟩)
        = some ⟨200, "basic", 2⟩) :=
  c3_api_network_first "https://app.example"
    ⟨"GET", ⟨"https://app.example", "/history", ""⟩, [], "cors", "same-origin"⟩
    [("api-cache", [("https://app.example/history", ⟨200, "basic", 1⟩)])]
    (fun _ => Except.ok ⟨200, "basic", 2⟩) true ⟨200, "basic", 2⟩ (by decide) rfl

/-- C4: for an api request whose network fetch rejects, the caller gets
the previously stored entry for that exact request when one exists, and a
not-found outcome (`respondWith(undefined)`) — not a thrown error — when
none does. -/
theorem c4_api_network_fail_falls_back (selfOrigin : String) (req : Request)
    (store : Store) (net : Net) (putOk : Bool) (e : Unit)
    (hapi : classify req = Decision.api)
    (hnet : net req = Except.error e) :
    (∀ c, cacheMatch (storeGet store "api-cache") req.url.href = some c →
      (handleFetch selfOrigin req store net putOk).outcome = Outcome.served c) ∧
    (cacheMatch (storeGet store "api-cache") req.url.href = none →
      (handleFetch selfOrigin req store net putOk).outcome = Outcome.servedNone) := by
  constructor
  · intro c hc
    have hc' : cacheMatch (storeGet (cachesOpen store "api-cache") "api-cache")
        req.url.href = some c := by rw [storeGet_cachesOpen]; exact hc
    simp [handleFetch, hapi, handleApi, hnet, hc']
  · intro hc
    have hc' : cacheMatch (storeGet (cachesOpen store "api-cache") "api-cache")
        req.url.href = none := by rw [storeGet_cachesOpen]; exact hc
    simp [handleFetch, hapi, handleApi, hnet, hc']

/-- Witness for C4: with the network down, a stored `/history` entry is
served, and an unknown `/recitation/9` request yields the not-found
outcome. -/
theorem c4_api_witness :
    (handleFetch "https://app.example"
        ⟨"GET", ⟨"https://app.example", "/history", ""⟩, [], "cors", "same-origin"⟩
        [("api-cache", [("https://app.example/history", ⟨200, "basic", 1⟩)])]
        (fun _ => Except.error ()) true).outcome
      = Outcome.served ⟨200, "basic", 1⟩ ∧
    (handleFetch "https://app.example"
        ⟨"GET", ⟨"https://app.example", "/recitation/9", ""⟩, [], "cors", "same-origin"⟩
        [] (fun _ => Except.error ()) true).outcome = Outcome.servedNone := by
  constructor
  · exact (c4_api_network_fail_falls_back "https://app.example"
      ⟨"GET", ⟨"https://app.example", "/history", ""⟩, [], "cors", "same-origin"⟩
      [("api-cache", [("https://app.example/history", ⟨200, "basic", 1⟩)])]
      (fun _ => Except.error ()) true () (by decide) rfl).1 ⟨200, "basic", 1⟩ (by decide)
  · exact (c4_api_network_fail_falls_back "https://app.example"
      ⟨"GET", ⟨"https://app.example", "/recitation/9", ""⟩, [], "cors", "same-origin"⟩
      [] (fun _ => Except.error ()) true () (by decide) rfl).2 (by decide)

/-- C10: for an api request whose network fetch resolves with a status
other than 200, the caller gets that live response and every partition's
contents — in particular any previously stored entry for the same
request — are unchanged. -/
theorem c10_api_non200_leaves_cache_unchanged (selfOrigin : String) (req : Request)
    (store : Store) (net : Net) (putOk : Bool) (nr : Response)
    (hapi : classify req = Decision.api)
    (hnet : net req = Except.ok nr) (h200 : nr.status ≠ 200) :
    (handleFetch selfOrigin req store net putOk).outcome = Outcome.served nr ∧
    ∀ n, storeGet (handleFetch selfOrigin req store net putOk).store n = storeGet store n := by
  constructor
  · simp [handleFetch, hapi, handleApi, hnet, h200]
  · intro n
    simp [handleFetch, hapi, handleApi, hnet, h200, storeGet_cachesOpen]

/-- Witness for C10: a 404 network answer is served live and the stale
stored entry survives untouched. -/
theorem c10_api_witness :
    (handleFetch "https://app.example"
        ⟨"GET", ⟨"https://app.example", "/history", ""⟩, [], "cors", "same-origin"⟩
        [("api-cache", [("https://app.example/history", ⟨200, "basic", 1⟩)])]
        (fun _ => Except.ok ⟨404, "basic", 6⟩) true).outcome
      = Outcome.served ⟨404, "basic", 6⟩ ∧
    ∀ n, storeGet (handleFetch "https://app.example"
        ⟨"GET", ⟨"https://app.example", "/history", ""⟩, [], "cors", "same-origin"⟩
        [("api-cache", [("https://app.example/history", ⟨200, "basic", 1⟩)])]
        (fun _ => Except.ok ⟨404, "basic", 6⟩) true).store n
      = storeGet [("api-cache", [("https://app.example/history", ⟨200, "basic", 1⟩)])] n :=
  c10_api_non200_leaves_cache_unchanged "https://app.example"
    ⟨"GET", ⟨"https://app.example", "/history", ""⟩, [], "cors", "same-origin"⟩
    [("api-cache", [("https://app.example/history", ⟨200, "basic", 1⟩)])]
    (fun _ => Except.ok ⟨404, "basic", 6⟩) true ⟨404, "basic", 6⟩
    (by decide) rfl (by decide)

/-- C5: for a default-strategy request, a cache hit is served as-is for
every possible network behaviour (the response never waits on, nor depends
on, the network); the network response is stored into `CACHE_NAME` exactly
when it resolved with status 200 and type `basic` (a resolved fetch always
carries a response, so the source's presence test is vacuous); on a miss
the caller receives the network result. -/
theorem c5_default_stale_while_revalidate (selfOrigin : String) (req : Request)
    (store : Store) (net : Net)
    (hdef : classify req = Decision.default) :
    (∀ c, cachesMatchAll store req.url.href = some c →
      ∀ putOk, (handleFetch selfOrigin req store net putOk).outcome = Outcome.served c) ∧
    (∀ nr, net req = Except.ok nr → nr.status = 200 → nr.type = "basic" →
      cacheMatch (storeGet (handleFetch selfOrigin req store net true).store CACHE_NAME)
        req.url.href = some nr) ∧
    (∀ nr, net req = Except.ok nr → ¬(nr.status = 200 ∧ nr.type = "basic") →
      ∀ putOk, (handleFetch selfOrigin req store net putOk).store = store) ∧
    (∀ e, net req = Except.error e →
      ∀ putOk, (handleFetch selfOrigin req store net putOk).store = store) ∧
    (cachesMatchAll store req.url.href = none →
      (∀ nr, net req = Except.ok nr → ∀ putOk,
        (handleFetch selfOrigin req store net putOk).outcome = Outcome.served nr) ∧
      (∀ e, net req = Except.error e → ∀ putOk,
        (handleFetch selfOrigin req store net putOk).outcome = Outcome.failed)) := by
  refine ⟨?_, ?_, ?_, ?_, ?_⟩
  · intro c hc putOk
    simp [handleFetch, hdef, handleDefault, hc]
  · intro nr hnet h200 htype
    cases hcm : cachesMatchAll store req.url.href <;>
      simp [handleFetch, hdef, handleDefault, hcm, hnet, h200, htype,
        storeGet_storeSet_self, cacheMatch_cachePut_self, Response.clone]
  · intro nr hnet hnv putOk
    rcases Decidable.em (nr.status = 200) with h1 | h1
    · rcases Decidable.em (nr.type = "basic") with h2 | h2
      · exact absurd ⟨h1, h2⟩ hnv
      · cases hcm : cachesMatchAll store req.url.href <;>
          simp [handleFetch, hdef, handleDefault, hcm, hnet, h1, h2]
    · cases hcm : cachesMatchAll store req.url.href <;>
        simp [handleFetch, hdef, handleDefault, hcm, hnet, h1]
  · intro e hnet putOk
    cases hcm : cachesMatchAll store req.url.href <;>
      simp [handleFetch, hdef, handleDefault, hcm, hnet]
  · intro hcm
    constructor
    · intro nr hnet putOk
      simp [handleFetch, hdef, handleDefault, hcm, hnet]
    · intro e hnet putOk
      simp [handleFetch, hdef, handleDefault, hcm, hnet]

/-- Witness for C5, the spec's `/app.css` scenario: a stale cached copy is
served while the fresh same-origin 200 copy replaces it in `CACHE_NAME`. -/
theorem c5_default_witness :
    (handleFetch "https://app.example"
        ⟨"GET", ⟨"https://app.example", "/app.css", ""⟩, [], "cors", "same-origin"⟩
        [("quran-reciter-v12", [("https://app.example/app.css", ⟨200, "basic", 1⟩)])]
        (fun _ => Except.ok ⟨200, "basic", 2⟩) true).outcome
      = Outcome.served ⟨200, "basic", 1⟩ ∧
    cacheMatch (storeGet (handleFetch "https://app.example"
        ⟨"GET", ⟨"https://app.example", "/app.css", ""⟩, [], "cors", "same-origin"⟩
        [("quran-reciter-v12", [("https://app.example/app.css", ⟨200, "basic", 1⟩)])]
        (fun _ => Except.ok ⟨200, "basic", 2⟩) true).store CACHE_NAME)
        (Url.href ⟨"https://app.example", "/app.css", ""⟩)
      = some ⟨200, "basic", 2⟩ := by
  have h := c5_default_stale_while_revalidate "https://app.example"
    ⟨"GET", ⟨"https://app.example", "/app.css", ""⟩, [], "cors", "same-origin"⟩
    [("quran-reciter-v12", [("https://app.example/app.css", ⟨200, "basic", 1⟩)])]
    (fun _ => Except.ok ⟨200, "basic", 2⟩) (by decide)
  exact ⟨h.1 ⟨200, "basic", 1⟩ (by decide) true, h.2.1 ⟨200, "basic", 2⟩ rfl rfl rfl⟩

/-- C2 counterexample: the store key and the lookup key are NOT the same
canonical key for every media request.  The lookup (line 70) keys on the
request's full URL, query included; the store (line 100) keys on the
query-less same-origin path URL.  A media request carrying a query string
stores under one key and looks up another: repeating the very same request
after a successful 200 fetch-and-store misses the cache and is served by
the network again (body 2, not the stored body 1), even though the entry
is present under the canonical key. -/
theorem c2_counterexample_query_misses :
    cacheMatch
        (storeGet (handleFetch "https://app.example"
          ⟨"GET", ⟨"https://app.example", "/a.mp3", "?v=1"⟩, [], "cors", "same-origin"⟩
          [] (fun _ => Except.ok ⟨200, "basic", 1⟩) true).store "audio-cache")
        "https://app.example/a.mp3"
      = some ⟨200, "basic", 1⟩ ∧
    (handleFetch "https://app.example"
        ⟨"GET", ⟨"https://app.example", "/a.mp3", "?v=1"⟩, [], "cors", "same-origin"⟩
        (handleFetch "https://app.example"
          ⟨"GET", ⟨"https://app.example", "/a.mp3", "?v=1"⟩, [], "cors", "same-origin"⟩
          [] (fun _ => Except.ok ⟨200, "basic", 1⟩) true).store
        (fun _ => Except.ok ⟨200, "basic", 2⟩) true).outcome
      = Outcome.served ⟨200, "basic", 2⟩ := by
  refine ⟨by decide, by decide⟩

/-- C2 amended: for a media request whose URL is same-origin and carries
no query string, the lookup key equals the canonical store key, so after a
miss, a successful 200 fetch and a store, any later media request with the
same method and URL — in particular one differing only in its Range
header — finds the stored entry on lookup, for every later network
behaviour and write outcome. -/
theorem c2_amended_same_origin_no_query (selfOrigin : String) (req : Request)
    (store : Store) (net : Net) (nr : Response)
    (hmedia : classify req = Decision.media)
    (horigin : req.url.origin = selfOrigin)
    (hsearch : req.url.search = "")
    (hmiss : cacheMatch (storeGet store "audio-cache") req.url.href = none)
    (hnet : net (normalizeMedia selfOrigin req) = Except.ok nr)
    (h200 : nr.status = 200) :
    (handleFetch selfOrigin req store net true).outcome = Outcome.served nr ∧
    ∀ req₂ net₂ putOk₂, req₂.method = req.method → req₂.url = req.url →
      (handleFetch selfOrigin req₂
          (handleFetch selfOrigin req store net true).store net₂ putOk₂).outcome
        = Outcome.served nr := by
  have hmiss' : cacheMatch (storeGet (cachesOpen store "audio-cache") "audio-cache")
      req.url.href = none := by
    rw [storeGet_cachesOpen]; exact hmiss
  have hkey : req.url.href = mediaFetchUrl selfOrigin req := by
    simp [Url.href, mediaFetchUrl, horigin, hsearch, String.append_empty]
  have hstore : (handleFetch selfOrigin req store net true).store
      = storeSet (cachesOpen store "audio-cache") "audio-cache"
          (cachePut (storeGet (cachesOpen store "audio-cache") "audio-cache")
            (mediaFetchUrl selfOrigin req) nr) := by
    simp [handleFetch, hmedia, handleMedia, hmiss, hmiss', hnet, h200, Response.clone]
  constructor
  · simp [handleFetch, hmedia, handleMedia, hmiss, hmiss', hnet, h200]
  · intro req₂ net₂ putOk₂ hm hu
    have hc₂ : classify req₂ = Decision.media := by
      rw [classify_congr req₂ req hm hu, hmedia]
    rw [hstore]
    have hhit : cacheMatch
        (storeGet (cachesOpen (storeSet (cachesOpen store "audio-cache") "audio-cache"
          (cachePut (storeGet (cachesOpen store "audio-cache") "audio-cache")
            (mediaFetchUrl selfOrigin req) nr)) "audio-cache") "audio-cache")
        req₂.url.href = some nr := by
      rw [storeGet_cachesOpen, storeGet_storeSet_self, hu, hkey]
      exact cacheMatch_cachePut_self _ _ _
    simp [handleFetch, hc₂, handleMedia, hhit]

/-- Witness for the amended C2: a range-bearing request misses, fetches
the full file and stores it; the same URL requested again without the
Range header is served from the cache even though the network is down. -/
theorem c2_amended_witness :
    (handleFetch "https://app.example"
        ⟨"GET", ⟨"https://app.example", "/a.mp3", ""⟩,
          [("range", "bytes=0-")], "no-cors", "include"⟩
        [] (fun _ => Except.ok ⟨200, "basic", 1⟩) true).outcome
      = Outcome.served ⟨200, "basic", 1⟩ ∧
    (handleFetch "https://app.example"
        ⟨"GET", ⟨"https://app.example", "/a.mp3", ""⟩, [], "cors", "same-origin"⟩
        (handleFetch "https://app.example"
          ⟨"GET", ⟨"https://app.example", "/a.mp3", ""⟩,
            [("range", "bytes=0-")], "no-cors", "include"⟩
          [] (fun _ => Except.ok ⟨200, "basic", 1⟩) true).store
        (fun _ => Except.error ()) false).outcome
      = Outcome.served ⟨200, "basic", 1⟩ := by
  have h := c2_amended_same_origin_no_query "https://app.example"
    ⟨"GET", ⟨"https://app.example", "/a.mp3", ""⟩,
      [("range", "bytes=0-")], "no-cors", "include"⟩
    [] (fun _ => Except.ok ⟨200, "basic", 1⟩) ⟨200, "basic", 1⟩
    (by decide) rfl rfl (by decide) rfl rfl
  exact ⟨h.1, h.2
    ⟨"GET", ⟨"https://app.example", "/a.mp3", ""⟩, [], "cors", "same-origin"⟩
    (fun _ => Except.error ()) false rfl rfl⟩

/-- C9 counterexample: in the api strategy a storage write failure is NOT
logged — `cache.put` on line 125 has no rejection handler.  A 200 network
answer whose put fails leaves the log empty even though the put was
attempted; the response is still served (the failure is non-fatal). -/
theorem c9_counterexample_api_put_failure_unlogged :
    (handleFetch "https://app.example"
        ⟨"GET", ⟨"https://app.example", "/history", ""⟩, [], "cors", "same-origin"⟩
        [] (fun _ => Except.ok ⟨200, "basic", 4⟩) false).log = [] ∧
    CacheOp.putp "api-cache" "https://app.example/history" ∈
      (handleFetch "https://app.example"
        ⟨"GET", ⟨"https://app.example", "/history", ""⟩, [], "cors", "same-origin"⟩
        [] (fun _ => Except.ok ⟨200, "basic", 4⟩) false).ops ∧
    (handleFetch "https://app.example"
        ⟨"GET", ⟨"https://app.example", "/history", ""⟩, [], "cors", "same-origin"⟩
        [] (fun _ => Except.ok ⟨200, "basic", 4⟩) false).outcome
      = Outcome.served ⟨200, "basic", 4⟩ := by
  refine ⟨by decide, by decide, by decide⟩

/-- C9 amended: a storage write failure is non-fatal in all three
strategies — the caller receives exactly the response it would have
received had the write succeeded — but it is logged only by the media
strategy (lines 101–103); the api and default strategies attach no
rejection handler to their `cache.put`, so nothing is logged there. -/
theorem c9_amended_put_failure_nonfatal (selfOrigin : String) (req : Request)
    (store : Store) (net : Net) :
    ((handleFetch selfOrigin req store net false).outcome
        = (handleFetch selfOrigin req store net true).outcome) ∧
    (classify req = Decision.media →
      cacheMatch (storeGet store "audio-cache") req.url.href = none →
      ∀ nr, net (normalizeMedia selfOrigin req) = Except.ok nr → nr.status = 200 →
        "[SW] Cache put failed:" ∈ (handleFetch selfOrigin req store net false).log) ∧
    ((classify req = Decision.api ∨ classify req = Decision.default) →
      (handleFetch selfOrigin req store net false).log = []) := by
  refine ⟨?_, ?_, ?_⟩
  · cases hcl : classify req with
    | bypass => simp [handleFetch, hcl]
    | media =>
        cases hcm : cacheMatch (storeGet (cachesOpen store "audio-cache") "audio-cache")
            req.url.href with
        | some r => simp [handleFetch, hcl, handleMedia, hcm]
        | none =>
            cases hnet : net (normalizeMedia selfOrigin req) with
            | ok nr =>
                by_cases h200 : nr.status = 200 <;>
                  simp [handleFetch, hcl, handleMedia, hcm, hnet, h200]
            | error e => simp [handleFetch, hcl, handleMedia, hcm, hnet]
    | api =>
        cases hnet : net req with
        | ok nr =>
            by_cases h200 : nr.status = 200 <;>
              simp [handleFetch, hcl, handleApi, hnet, h200]
        | error e =>
            cases hcm : cacheMatch (storeGet (cachesOpen store "api-cache") "api-cache")
                req.url.href with
            | some c => simp [handleFetch, hcl, handleApi, hnet, hcm]
            | none => simp [handleFetch, hcl, handleApi, hnet, hcm]
    | default =>
        cases hcm : cachesMatchAll store req.url.href with
        | some c => simp [handleFetch, hcl, handleDefault, hcm]
        | none =>
            cases hnet : net req with
            | ok nr => simp [handleFetch, hcl, handleDefault, hcm, hnet]
            | error e => simp [handleFetch, hcl, handleDefault, hcm, hnet]
  · intro hcl hmiss nr hnet h200
    have hmiss' : cacheMatch (storeGet (cachesOpen store "audio-cache") "audio-cache")
        req.url.href = none := by
      rw [storeGet_cachesOpen]; exact hmiss
    simp [handleFetch, hcl, handleMedia, hmiss, hmiss', hnet, h200]
  · intro hcl
    rcases hcl with hcl | hcl
    · cases hnet : net req with
      | ok nr =>
          by_cases h200 : nr.status = 200 <;>
            simp [handleFetch, hcl, handleApi, hnet, h200]
      | error e =>
          cases hcm : cacheMatch (storeGet (cachesOpen store "api-cache") "api-cache")
              req.url.href with
          | some c => simp [handleFetch, hcl, handleApi, hnet, hcm]
          | none => simp [handleFetch, hcl, handleApi, hnet, hcm]
    · cases hcm : cachesMatchAll store req.url.href with
      | some c => simp [handleFetch, hcl, handleDefault, hcm]
      | none =>
          cases hnet : net req with
          | ok nr => simp [handleFetch, hcl, handleDefault, hcm, hnet]
          | error e => simp [handleFetch, hcl, handleDefault, hcm, hnet]

/-- Witness for the amended C9: a failing media put is logged and the 200
response is still served, identical to the successful-put outcome. -/
theorem c9_amended_witness :
    ((handleFetch "https://app.example"
        ⟨"GET", ⟨"https://app.example", "/b.mp3", ""⟩, [], "cors", "same-origin"⟩
        [] (fun _ => Except.ok ⟨200, "basic", 5⟩) false).outcome
      = (handleFetch "https://app.example"
        ⟨"GET", ⟨"https://app.example", "/b.mp3", ""⟩, [], "cors", "same-origin"⟩
        [] (fun _ => Except.ok ⟨200, "basic", 5⟩) true).outcome) ∧
    "[SW] Cache put failed:" ∈ (handleFetch "https://app.example"
        ⟨"GET", ⟨"https://app.example", "/b.mp3", ""⟩, [], "cors", "same-origin"⟩
        [] (fun _ => Except.ok ⟨200, "basic", 5⟩) false).log := by
  have h := c9_amended_put_failure_nonfatal "https://app.example"
    ⟨"GET", ⟨"https://app.example", "/b.mp3", ""⟩, [], "cors", "same-origin"⟩
    [] (fun _ => Except.ok ⟨200, "basic", 5⟩)
  exact ⟨h.1, h.2.1 (by decide) (by decide) ⟨200, "basic", 5⟩ rfl rfl⟩

end SW
